import Mathlib

/-!
Verification of the natural-language specification of the `wardle/empi`
repository against a shallow Lean embedding of its Go source.

The embedding covers the EMPI protocol adapter (envelope normalisation into a
canonical Patient, date parsing, the HTTP handlers and their result cache) and
the SDS role table with its SDS/SNOMED identifier mappers.  Each definition is
translated from the corresponding Go function; definitions whose name matches
a Go symbol embed that symbol.
-/

namespace Empi

/-- Calendar date as produced by Go `time.Parse` with layout `20060102`:
the time-of-day part is always midnight UTC here, so a year/month/day triple
captures the value exactly. -/
structure GoTime where
  year : Nat
  month : Nat
  day : Nat
deriving DecidableEq, Repr

/-- The zero `time.Time` (`t.IsZero()`): January 1, year 1. -/
def zeroTime : GoTime := ⟨1, 1, 1⟩

/-- Splitting a character list at every character satisfying `p`, keeping
empty pieces, as Go `strings.Split` does for a one-character separator (and
`strings.FieldsFunc` before empty pieces are dropped).  `acc` holds the
current piece reversed. -/
def splitChars (p : Char → Bool) : List Char → List Char → List String
  | [], acc => [String.mk acc.reverse]
  | c :: rest, acc =>
    if p c then String.mk acc.reverse :: splitChars p rest []
    else splitChars p rest (c :: acc)

/-- Go `strings.TrimSpace`: drop unicode whitespace from both ends. -/
def goTrimSpace (s : String) : String :=
  String.mk (((s.data.dropWhile Char.isWhitespace).reverse.dropWhile Char.isWhitespace).reverse)

/-- Digits of a decimal numeral read into a `Nat` (most significant first). -/
def digitsToNat (cs : List Char) : Nat :=
  cs.foldl (fun acc c => acc * 10 + (c.toNat - 48)) 0

/-- Leap-year rule of the proleptic Gregorian calendar, as in Go `time`. -/
def isLeap (y : Nat) : Bool :=
  y % 4 == 0 && (y % 100 != 0 || y % 400 == 0)

/-- Number of days in a month, as validated by Go `time.Parse`
(`day out of range`). -/
def daysIn (y m : Nat) : Nat :=
  if m = 2 then (if isLeap y then 29 else 28)
  else if m = 4 ∨ m = 6 ∨ m = 9 ∨ m = 11 then 30
  else 31

/-- Go `time.Parse("20060102", d)` on a character list: succeeds exactly on
eight decimal digits whose month lies in 1..12 and whose day lies in the
month range (Go reports `month out of range` / `day out of range`
otherwise; the four-digit year is not range-checked). -/
def goTimeParseYYYYMMDD (cs : List Char) : Option GoTime :=
  if cs.length = 8 ∧ cs.all Char.isDigit then
    let y := digitsToNat (cs.take 4)
    let mo := digitsToNat ((cs.drop 4).take 2)
    let dy := digitsToNat (cs.drop 6)
    if 1 ≤ mo ∧ mo ≤ 12 ∧ 1 ≤ dy ∧ dy ≤ daysIn y mo then some ⟨y, mo, dy⟩
    else none
  else none

/-- Embeds Go `parseDate` (part_000 lines 720-730): truncate to the first 8
bytes, parse with layout `20060102`, and drop both parse failures and the zero
time.  Go truncates by bytes while this model truncates by characters; the two
agree on every input because a successful parse needs eight ASCII digit
characters, and any input where byte and character truncation differ contains
a multi-byte character and fails the digit test either way. -/
def parseDate (d : String) : Option GoTime :=
  let d8 := if d.utf8ByteSize > 8 then String.mk (d.data.take 8) else d
  match goTimeParseYYYYMMDD d8.data with
  | none => none
  | some t => if t = zeroTime then none else some t

/-- Written from the words of the specification, for comparison with
`parseDate`: take the first 8 characters of the timestamp field and read
them as `YYYYMMDD`; unparsable, empty or all-zero values give none. -/
def specTimestampDate (d : String) : Option GoTime :=
  goTimeParseYYYYMMDD (d.data.take 8)

/-! ## The response envelope

The Go `envelope` struct mirrors the whole XML response document; the
accessors below each read one fixed path under
`Body.InvokePatientDemographicsQueryResponse.RSP_K21.RSP_K21.QUERY_RESPONSE`.
The embedding keeps exactly the components those accessors read, named after
the corresponding XML elements, with the repeatable groups (`PID.3`, `PID.5`,
`PID.11`, `PID.13`, `PID.14`) as lists exactly as in the Go struct. -/

/-- Hierarchic designator: only `HD.1` is read (`CX.4` authority). -/
structure HD where
  hd1 : String
deriving DecidableEq, Repr

/-- Family name component: only `FN.1` is read. -/
structure FN where
  fn1 : String
deriving DecidableEq, Repr

/-- A `PID.5` name entry: family name, given names, title. -/
structure XPN where
  xpn1 : FN
  xpn2 : String
  xpn3 : String
  xpn5 : String
deriving DecidableEq, Repr

/-- A `PID.3` identifier-list entry: value (`CX.1`) and authority (`CX.4`). -/
structure CX where
  cx1 : String
  cx4 : HD
deriving DecidableEq, Repr

/-- Street address component: only `SAD.1` is read. -/
structure SAD where
  sad1 : String
deriving DecidableEq, Repr

/-- A `PID.11` address-list entry. -/
structure XAD where
  xad1 : SAD
  xad2 : String
  xad3 : String
  xad4 : String
  xad5 : String
  xad13 : String
  xad14 : String
deriving DecidableEq, Repr

/-- A `PID.13`/`PID.14` telecom entry; `longName` is the
`LongName` XML attribute, read for the phone description. -/
structure XTN where
  xtn1 : String
  xtn4 : String
  longName : String
deriving DecidableEq, Repr

/-- Timestamp component: only `TS.1` is read. -/
structure TS where
  ts1 : String
deriving DecidableEq, Repr

/-- The `PID` segment, with the repeatable fields as lists. -/
structure PID where
  pid3 : List CX
  pid5 : List XPN
  pid7 : TS
  pid8 : String
  pid11 : List XAD
  pid13 : List XTN
  pid14 : List XTN
  pid29 : TS
deriving DecidableEq, Repr

/-- Organisation name component: only `XON.3` is read (surgery). -/
structure XON where
  xon3 : String
deriving DecidableEq, Repr

/-- Person name component: only `XCN.1` is read (general practitioner). -/
structure XCN where
  xcn1 : String
deriving DecidableEq, Repr

/-- The `PD1` segment: registered practice (`PD1.3`) and GP (`PD1.4`). -/
structure PD1 where
  pd13 : XON
  pd14 : XCN
deriving DecidableEq, Repr

/-- The `RSP_K21.QUERY_RESPONSE` group. -/
structure QueryResponse where
  pid : PID
  pd1 : PD1
deriving DecidableEq, Repr

/-- A parsed response envelope, restricted to the query-response group all
accessors read. -/
structure Envelope where
  queryResponse : QueryResponse
deriving DecidableEq, Repr

/-! ## The canonical Patient record -/

/-- Embeds the Go `Reference` struct; the `Type` and `Identifier` fields are
never written or read by this code and are omitted. -/
structure Reference where
  reference : String
  display : String
deriving DecidableEq, Repr

/-- Embeds the Go `Period` struct; `end_` stands for the Go field `End`
(`end` is reserved in Lean). -/
structure Period where
  start : Option GoTime
  end_ : Option GoTime
deriving DecidableEq, Repr

/-- Embeds the Go `Identifier` struct; the `Type` codeable-concept field is
never written or read by this code and is omitted. -/
structure Identifier where
  use : String
  system : String
  value : String
  period : Option Period
  assigner : Option Reference
deriving DecidableEq, Repr

/-- Embeds the Go `Address` struct. -/
structure Address where
  use : String
  type : String
  text : String
  line : String
  city : String
  district : String
  state : String
  postalCode : String
  country : String
  period : Option Period
deriving DecidableEq, Repr

/-- Embeds the Go `ContactPoint` struct (`Rank` is a small non-negative
int). -/
structure ContactPoint where
  system : String
  value : String
  use : String
  rank : Nat
  period : Option Period
  description : String
deriving DecidableEq, Repr

/-- Embeds the Go `Patient` struct. -/
structure Patient where
  lastname : String
  firstnames : String
  title : String
  gender : String
  birthDate : Option GoTime
  deathDate : Option GoTime
  surgery : String
  generalPractitioner : String
  identifiers : List Identifier
  addresses : List Address
  telecom : List ContactPoint
deriving DecidableEq, Repr

/-! ## Envelope accessors (part_000 lines 576-718) -/

/-- Embeds `(*envelope).surname`: family-name component of the first name
entry, or empty when the name list is empty. -/
def Envelope.surname (e : Envelope) : String :=
  match e.queryResponse.pid.pid5 with
  | [] => ""
  | n :: _ => n.xpn1.fn1

/-- Embeds `(*envelope).firstnames`: `XPN.2 ++ " " ++ XPN.3` of the first
name entry, trimmed (the Go code trims with `strings.TrimSpace`). -/
def Envelope.firstnames (e : Envelope) : String :=
  goTrimSpace (match e.queryResponse.pid.pid5 with
   | [] => ""
   | n :: _ => n.xpn2 ++ " " ++ n.xpn3)

/-- Embeds `(*envelope).title`. -/
def Envelope.title (e : Envelope) : String :=
  match e.queryResponse.pid.pid5 with
  | [] => ""
  | n :: _ => n.xpn5

/-- Embeds `(*envelope).gender`. -/
def Envelope.gender (e : Envelope) : String :=
  e.queryResponse.pid.pid8

/-- Embeds `(*envelope).dateBirth`: parse `PID.7/TS.1` when non-empty,
swallowing any parse failure. -/
def Envelope.dateBirth (e : Envelope) : Option GoTime :=
  let dob := e.queryResponse.pid.pid7.ts1
  if dob.length > 0 then parseDate dob else none

/-- Embeds `(*envelope).dateDeath`: parse `PID.29/TS.1` when non-empty,
swallowing any parse failure. -/
def Envelope.dateDeath (e : Envelope) : Option GoTime :=
  let dod := e.queryResponse.pid.pid29.ts1
  if dod.length > 0 then parseDate dod else none

/-- Embeds `(*envelope).surgery`. -/
def Envelope.surgery (e : Envelope) : String :=
  e.queryResponse.pd1.pd13.xon3

/-- Embeds `(*envelope).generalPractitioner`. -/
def Envelope.generalPractitioner (e : Envelope) : String :=
  e.queryResponse.pd1.pd14.xcn1

/-- Embeds `(*envelope).identifiers`: the Go loop appends, for each `PID.3`
entry whose authority (`CX.4/HD.1`) and value (`CX.1`) are both non-empty, an
official Identifier whose assigner references the authority code. -/
def Envelope.identifiers (e : Envelope) : List Identifier :=
  e.queryResponse.pid.pid3.foldl
    (fun result id =>
      let authority := id.cx4.hd1
      let identifier := id.cx1
      if authority ≠ "" ∧ identifier ≠ "" then
        result ++ [{ use := "official", system := authority,
                     value := identifier, period := none,
                     assigner := some { reference := authority,
                                        display := authority } }]
      else result)
    []

/-- Embeds `(*envelope).addresses`: the Go loop appends one Address per
`PID.11` entry, with both period bounds parsed by `parseDate` and their
errors discarded. -/
def Envelope.addresses (e : Envelope) : List Address :=
  e.queryResponse.pid.pid11.foldl
    (fun result address =>
      let dateFrom := parseDate address.xad13
      let dateTo := parseDate address.xad14
      result ++ [{ use := "", type := "", text := "",
                   line := address.xad1.sad1, city := address.xad2,
                   district := address.xad3, state := "",
                   country := address.xad4, postalCode := address.xad5,
                   period := some { start := dateFrom, end_ := dateTo } }])
    []

/-- Embeds `(*envelope).telecom`: for each `PID.13` then `PID.14` entry, a
phone contact point when `XTN.1` is non-empty and an email contact point when
`XTN.4` is non-empty. -/
def Envelope.telecom (e : Envelope) : List ContactPoint :=
  let fromEntry := fun (result : List ContactPoint) (telephone : XTN) =>
    let result :=
      if telephone.xtn1 ≠ "" then
        result ++ [{ system := "phone", value := telephone.xtn1, use := "",
                     rank := 0, period := none,
                     description := telephone.longName }]
      else result
    if telephone.xtn4 ≠ "" then
      result ++ [{ system := "email", value := telephone.xtn4, use := "",
                   rank := 0, period := none, description := "" }]
    else result
  let result := e.queryResponse.pid.pid13.foldl fromEntry []
  e.queryResponse.pid.pid14.foldl fromEntry result

/-- Error values `performRequest` can return, after the request document is
built: a transport failure (`*url.Error`, whose `Timeout()` distinguishes the
deadline case) or an `xml.Unmarshal` failure on the body. -/
inductive AdapterError where
  | urlError (timeout : Bool) (msg : String)
  | xmlError (msg : String)
deriving DecidableEq, Repr

/-- Embeds `(*envelope).ToPatient` (part_000 lines 557-574): the absent
result when both surname and composed given names are empty, a fully
populated Patient otherwise; the Go function returns a nil error on every
path. -/
def Envelope.ToPatient (e : Envelope) : Except AdapterError (Option Patient) :=
  let lastname := e.surname
  let firstnames := e.firstnames
  if lastname = "" ∧ firstnames = "" then .ok none
  else .ok (some { lastname := lastname, firstnames := firstnames,
                   title := e.title, gender := e.gender,
                   birthDate := e.dateBirth, deathDate := e.dateDeath,
                   surgery := e.surgery,
                   generalPractitioner := e.generalPractitioner,
                   identifiers := e.identifiers, addresses := e.addresses,
                   telecom := e.telecom })

/-- Outcome of the network interaction inside `performRequest`: the POST or
body read fails, or the body is read but `xml.Unmarshal` rejects it, or the
body unmarshals into an envelope.  The Go code never inspects the HTTP status
code, so the body of any 2xx (indeed any) response is covered by the last two
cases. -/
inductive RemoteOutcome where
  | transportError (timeout : Bool) (msg : String)
  | malformedBody (msg : String)
  | parsed (e : Envelope)
deriving DecidableEq, Repr

/-- Embeds `performRequest` (part_000 lines 345-374) from the point the
request document is built (building from the constant template cannot fail):
transport errors and unmarshal errors are returned as errors, and a parsed
envelope is normalised by `ToPatient`. -/
def performRequest (outcome : RemoteOutcome) : Except AdapterError (Option Patient) :=
  match outcome with
  | .transportError t m => .error (.urlError t m)
  | .malformedBody m => .error (.xmlError m)
  | .parsed e => e.ToPatient

/-! ## Authorities (part_000 lines 420-476) -/

/-- Embeds the Go `authorityCodes` array, indexed by the `Authority`
constants (`AuthorityUnknown = 0`, `AuthorityNHS = 1`, ...). -/
def authorityCodes : List String :=
  ["", "NHS", "100", "139", "108", "109", "110", "111", "126", "140", "149", "170"]

/-- The Go `AuthorityUnknown` constant. -/
def AuthorityUnknown : Nat := 0

/-- The Go `AuthorityNHS` constant. -/
def AuthorityNHS : Nat := 1

/-- The Go range-loop of `LookupAuthority`, scanning the code table in order
with its index. -/
def lookupAuthorityAux (authority : String) : List String → Nat → Nat
  | [], _ => AuthorityUnknown
  | a :: rest, i => if a = authority then i else lookupAuthorityAux authority rest (i + 1)

/-- Embeds `LookupAuthority` (part_000 lines 469-476): the index of the first
exactly-equal entry of `authorityCodes`, else `AuthorityUnknown`. -/
def LookupAuthority (authority : String) : Nat :=
  lookupAuthorityAux authority authorityCodes 0

/-! ## The App: cache and HTTP handlers (part_000 lines 191-293)

The go-cache instance is modelled as an association list from key to the
cached `*Patient` (which may itself be nil, hence `Option Patient`); a `none`
cache models `App.Cache == nil` (caching disabled).  Newer entries are
consed in front, so a lookup sees the most recent write, matching
`cache.Set` overwrite semantics.  Expiry is outside the model: every theorem
speaks about requests while the entries live. -/

/-- Contents of a live go-cache instance: key to cached nilable Patient. -/
abbrev CacheMap := List (String × Option Patient)

/-- The `App.Cache` field: `none` models a nil cache (caching disabled). -/
abbrev Cache := Option CacheMap

/-- Embeds `(*App).getCache`. -/
def getCache (c : Cache) (key : String) : Option Patient × Bool :=
  match c with
  | none => (none, false)
  | some m =>
    match m.lookup key with
    | some v => (v, true)
    | none => (none, false)

/-- Embeds `(*App).setCache`: a no-op on a nil cache, an overwriting insert
otherwise. -/
def setCache (c : Cache) (key : String) (value : Option Patient) : Cache :=
  match c with
  | none => none
  | some m => some ((key, value) :: m)

/-- Body written to the HTTP response: an `http.Error` message, the
`http.NotFound` page, or the JSON-encoded Patient. -/
inductive ResponseBody where
  | errorText (msg : String)
  | notFoundPage
  | patientJSON (p : Patient)
deriving DecidableEq, Repr

/-- An HTTP response as the handlers produce it. -/
structure Response where
  status : Nat
  body : ResponseBody
deriving DecidableEq, Repr

/-- Observable side effects of one handler invocation: how many times the
remote adapter (`performRequest`), `getCache` and `setCache` ran. -/
structure Effects where
  remoteCalls : Nat
  cacheGets : Nat
  cacheSets : Nat
deriving DecidableEq, Repr

/-- Result of one handler invocation: the response, the cache afterwards,
and the observable effects. -/
structure HandlerResult where
  response : Response
  cache : Cache
  effects : Effects
deriving DecidableEq, Repr

/-- Embeds `performFake` (part_000 lines 295-343): a fixed dummy Patient,
never an error. -/
def performFake (authority : Nat) (identifier : String) : Except AdapterError (Option Patient) :=
  .ok (some
    { lastname := "DUMMY", firstnames := "ALBERT", title := "DR",
      gender := "M", birthDate := some ⟨1960, 1, 1⟩, deathDate := none,
      surgery := "W95010", generalPractitioner := "G9342400",
      identifiers :=
        [{ use := "", system := authorityCodes.getD authority "",
           value := identifier, period := none, assigner := none },
         { use := "", system := "103", value := "M1147907",
           period := none, assigner := none }],
      addresses :=
        [{ use := "", type := "", text := "59 Robins Hill\nBrackla\nBRIDGEND\nCF31 2PJ\nWALES",
           line := "59 Robins Hill", city := "Brackla",
           district := "BRIDGEND", state := "", postalCode := "CF31 2PJ",
           country := "WALES", period := none }],
      telecom :=
        [{ system := "phone", value := "02920747747", use := "work",
           rank := 1, period := none, description := "Work number" },
         { system := "email", value := "test@test.com", use := "work",
           rank := 1, period := none, description := "Work email" }] })

/-- Embeds `(*App).writeIdentifier` (part_000 lines 254-293).  The cache is
consulted under `authority ++ "/" ++ identifier`; on a miss the remote
adapter runs (or `performFake` when `App.Fake` is set), a timeout transport
error maps to 408, any other error to 500, and a successful result -- found
or not -- is written to the cache before answering 200 with the JSON body or
404 via `http.NotFound`.  The outcome of the single possible
remote call made by this request is the `remote` argument. -/
def writeIdentifier (cache : Cache) (fake : Bool) (remote : RemoteOutcome)
    (authority identifier : String) : HandlerResult :=
  let key := authority ++ "/" ++ identifier
  match getCache cache key with
  | (pt, true) =>
    match pt with
    | none => ⟨⟨404, .notFoundPage⟩, cache, ⟨0, 1, 0⟩⟩
    | some p => ⟨⟨200, .patientJSON p⟩, cache, ⟨0, 1, 0⟩⟩
  | (_, false) =>
    let res := if fake then performFake (LookupAuthority authority) identifier
               else performRequest remote
    let remoteCalls := if fake then 0 else 1
    match res with
    | .error (.urlError true msg) =>
        ⟨⟨408, .errorText msg⟩, cache, ⟨remoteCalls, 1, 0⟩⟩
    | .error (.urlError false msg) =>
        ⟨⟨500, .errorText msg⟩, cache, ⟨remoteCalls, 1, 0⟩⟩
    | .error (.xmlError msg) =>
        ⟨⟨500, .errorText msg⟩, cache, ⟨remoteCalls, 1, 0⟩⟩
    | .ok pt =>
      let cache2 := setCache cache key pt
      match pt with
      | none => ⟨⟨404, .notFoundPage⟩, cache2, ⟨remoteCalls, 1, 1⟩⟩
      | some p => ⟨⟨200, .patientJSON p⟩, cache2, ⟨remoteCalls, 1, 1⟩⟩

/-- Embeds `(*App).GetByNhsNumber` (part_000 lines 217-233): reject an empty
user, then an NHS number whose length is not 10 (Go `len` counts UTF-8
bytes), before any cache or remote work; otherwise delegate to
`writeIdentifier` under the NHS authority code. -/
def GetByNhsNumber (cache : Cache) (fake : Bool) (remote : RemoteOutcome)
    (nnn user : String) : HandlerResult :=
  if user = "" then ⟨⟨400, .errorText "invalid user"⟩, cache, ⟨0, 0, 0⟩⟩
  else if nnn = "" ∨ nnn.utf8ByteSize ≠ 10 then
    ⟨⟨400, .errorText "invalid nhs number"⟩, cache, ⟨0, 0, 0⟩⟩
  else writeIdentifier cache fake remote (authorityCodes.getD AuthorityNHS "") nnn

/-- Embeds `(*App).GetByIdentifier` (part_000 lines 235-252): reject an empty
user, then an unknown authority code, before any cache or remote work;
otherwise delegate to `writeIdentifier`. -/
def GetByIdentifier (cache : Cache) (fake : Bool) (remote : RemoteOutcome)
    (authority identifier user : String) : HandlerResult :=
  if user = "" then ⟨⟨400, .errorText "invalid user"⟩, cache, ⟨0, 0, 0⟩⟩
  else if LookupAuthority authority = AuthorityUnknown then
    ⟨⟨400, .errorText "invalid authority"⟩, cache, ⟨0, 0, 0⟩⟩
  else writeIdentifier cache fake remote authority identifier

end Empi

namespace Sds

/-! ## SDS role table and SDS/SNOMED mappers (src/sds/roles.go) -/

/-- Embeds the `apiv1.Role` protobuf message: job title and deprecation
flag. -/
structure Role where
  jobTitle : String
  deprecated : Bool
deriving DecidableEq, Repr

/-- Embeds the `apiv1.Identifier` protobuf message used by the mappers:
system URI and value. -/
structure ApiIdentifier where
  system : String
  value : String
deriving DecidableEq, Repr

/-- The `identifiers.SNOMEDCT` system URI from the external concierge
library (its exact text is irrelevant to the theorems; it only tags mapper
output). -/
def SNOMEDCT : String := "http://snomed.info/sct"

/-- The `SDSJobRoleNameURI` constant (roles.go line 21). -/
def SDSJobRoleNameURI : String :=
  "https://fhir.nhs.uk/STU3/CodeSystem/CareConnect-SDSJobRoleName-1"

/-- Errors the resolver and mappers can return: `identifiers.ErrNotFound`,
the wrapped SNOMED parse failure, or the expected-a-concept failure. -/
inductive MapError where
  | notFound
  | parseFailure (value : String)
  | notConcept (value : String)
deriving DecidableEq, Repr

/-- Go `strings.Fields`: the whitespace-separated words of a string (the
table data only contains spaces and tabs, on which Lean `Char.isWhitespace`
and Go `unicode.IsSpace` agree). -/
def goFields (s : String) : List String :=
  (Empi.splitChars Char.isWhitespace s.data []).filter (fun w => w ≠ "")

/-- Embeds the Go `sdsData` raw string literal (roles.go lines 120-511)
with the `strings.Split(sdsData, "\n")` step of `init` already applied:
one list element per line of the literal, each line verbatim (code, tab,
job title).  Splitting the 10-kilobyte literal is kept out of the model
only because reducing the concatenation inside the kernel is quadratic;
the line contents and their order are exactly those of the source. -/
def sdsLines : List String :=
  ["R0010\tMedical Director",
   "R0020\tClinical Director - Medical",
   "R0210\tDirector of Public Health",
   "R0030\tProfessor",
   "R0040\tSenior Lecturer",
   "R0050\tConsultant",
   "R0060\tSpecial Salary Scale in Public Health Medicine",
   "R0070\tAssociate Specialist",
   "R0080\tStaff Grade",
   "R0090\tHospital Practitioner",
   "R0100\tClinical Assistant",
   "R0110\tSpecialist Registrar",
   "R0120\tSenior Registrar (Closed)",
   "R0130\tRegistrar (Closed)",
   "R0140\tSenior House Officer",
   "R0150\tHouse Officer - Pre Registration",
   "R0160\tHouse Officer - Post Registration",
   "R0170\tTrust Grade Doctor - House Officer level",
   "R0180\tTrust Grade Doctor - SHO level",
   "R0190\tTrust Grade Doctor - Specialist Registrar level",
   "R0200\tTrust Grade Doctor - Career Grade level",
   "R0260\tGeneral Medical Practitioner",
   "R0270\tSalaried General Practitioner",
   "R1981\tPsychiatrist",
   "R1984\tHealth Records Administrator",
   "R6200\tGP Registrar",
   "R6300\tSessional GP",
   "R7140\tODP",
   "R7150\tSODP",
   "R9100\tA&E Staff Nurse (Temporary) London Cluster Only",
   "R9101\tA&E Manager (Temporary) London Cluster Only",
   "R9102\tA&E Doctor (Temporary) London Cluster only",
   "R9103\tA&E Student (Temporary) London Cluster Only",
   "R9104\tA&E Clerk (Temporary) London Cluster Only",
   "R0215\tAssistant Clinical Medical Officer",
   "R0220\tClinical Medical Officer",
   "R0230\tSenior Clinical Medical Officer",
   "R0240\tOther Community Health Service",
   "R0243\tOther Community Health Service - Social Care Worker",
   "R0247\tOther Community Health Service - Admin Clerk",
   "R0055\tDental Surgeon acting as Hospital Consultant",
   "R0250\tGeneral Dental Practitioner",
   "R0280\tRegional Dental Officer",
   "R0290\tDental Clinical Director - Dental",
   "R0295\tDental Assistant Clinical Director",
   "R0300\tDental Officer",
   "R0310\tSenior Dental Officer",
   "R0320\tSalaried Dental Practitioner",
   "R0006\tStudent Community Practitioner",
   "R0330\tStudent Nurse - Adult Branch",
   "R0340\tStudent Nurse - Child Branch",
   "R0350\tStudent Nurse - Mental Health Branch",
   "R0360\tStudent Nurse - Learning Disabilities Branch",
   "R0370\tStudent Midwife",
   "R0380\tStudent Health Visitor",
   "R0390\tStudent District Nurse",
   "R0400\tStudent School Nurse",
   "R0410\tStudent Practice Nurse",
   "R0420\tStudent Occupational Health Nurse",
   "R0430\tStudent Community Paediatric Nurse",
   "R0440\tStudent Community Mental Health Nurse",
   "R0450\tStudent Community Learning Disabilities Nurse",
   "R0460\tStudent Chiropodist",
   "R0470\tStudent Dietitian",
   "R0480\tStudent Occupational Therapist",
   "R0490\tStudent Orthoptist",
   "R0500\tStudent Physiotherapist",
   "R0510\tStudent Radiographer - Diagnostic",
   "R0520\tStudent Radiographer - Therapeutic",
   "R0530\tStudent Speech & Language Therapist",
   "R0540\tArt, Music & Drama Student",
   "R0550\tStudent Psychotherapist",
   "R6400\tMedical Student",
   "R0560\tDirector of Nursing",
   "R0580\tNurse Manager",
   "R0610\tSister/Charge Nurse",
   "R1976\tCommunity Team Manager",
   "R0570\tNurse Consultant",
   "R0600\tSpecialist Nurse Practitioner",
   "R0620\tStaff Nurse",
   "R0630\tEnrolled Nurse",
   "R0690\tCommunity Practitioner",
   "R0700\tCommunity Nurse",
   "R1974\tCommunity Learning Disabilities Nurse",
   "R1975\tCommunity Mental Health Nurse",
   "R0590\tModern Matron",
   "R1972\tClinical Team Manager",
   "R0640\tMidwife - Consultant",
   "R0650\tMidwife - Specialist Practitioner",
   "R0660\tMidwife - Manager",
   "R0670\tMidwife - Sister/Charge Nurse",
   "R0680\tMidwife",
   "R0018\tAudiologist",
   "R0750\tChiropodist/Podiatrist",
   "R0760\tChiropodist/Podiatrist Consultant",
   "R0770\tChiropodist/Podiatrist Manager",
   "R0780\tChiropodist/Podiatrist Specialist Practitioner",
   "R0790\tDietitian",
   "R0800\tDietitian Consultant",
   "R0810\tDietitian Manager",
   "R0820\tDietitian Specialist Practitioner",
   "R0950\tOccupational Therapist",
   "R0960\tOccupational Therapist Consultant",
   "R0970\tOccupational Therapist Manager",
   "R0980\tOccupational Therapy Specialist Practitioner",
   "R0990\tOrthoptist",
   "R1000\tOrthoptist Consultant",
   "R1010\tOrthoptist Manager",
   "R1020\tOrthoptist Specialist Practitioner",
   "R1110\tPhysiotherapist",
   "R1120\tPhysiotherapist Consultant",
   "R1130\tPhysiotherapist Manager",
   "R1140\tPhysiotherapist Specialist Practitioner",
   "R1070\tParamedic",
   "R1080\tParamedic Consultant",
   "R1090\tParamedic Manager",
   "R1100\tParamedic Specialist Practitioner",
   "R0003\tClinical Application Administrator",
   "R0012\tRadiographer",
   "R0013\tStudent Radiographer",
   "R0014\tRadiologist",
   "R0015\tPACS Administrator",
   "R0016\tReporting Radiographer",
   "R0017\tAssistant Practitioner",
   "R1190\tRadiographer - Diagnostic",
   "R1200\tRadiographer - Diagnostic, Consultant",
   "R1210\tRadiographer - Diagnostic, Manager",
   "R1220\tRadiographer - Diagnostic, Specialist Practitioner",
   "R1230\tRadiographer - Therapeutic",
   "R1240\tRadiographer - Therapeutic, Consultant",
   "R1250\tRadiographer - Therapeutic, Manager",
   "R1260\tRadiographer - Therapeutic, Specialist Practitioner",
   "R1030\tOrthotist",
   "R1040\tOrthotist Consultant",
   "R1050\tOrthotist Manager",
   "R1060\tOrthotist Specialist Practitioner",
   "R1150\tProsthetist",
   "R1160\tProsthetist Consultant",
   "R1170\tProsthetist Manager",
   "R1180\tProsthetist Specialist Practitioner",
   "R0710\tArt Therapist",
   "R0720\tArt Therapist Consultant",
   "R0730\tArt Therapist Manager",
   "R0740\tArt Therapist Specialist Practitioner",
   "R0830\tDrama Therapist",
   "R0840\tDrama Therapist Consultant",
   "R0850\tDrama Therapist Manager",
   "R0860\tDrama Therapist Specialist Practitioner",
   "R0870\tMulti Therapist",
   "R0880\tMulti Therapist Consultant",
   "R0890\tMulti Therapist Manager",
   "R0900\tMulti Therapist Specialist Practitioner",
   "R0910\tMusic Therapist",
   "R0920\tMusic Therapist Consultant",
   "R0930\tMusic Therapist Manager",
   "R0940\tMusic Therapist Specialist Practitioner",
   "R0955\tSpeech & Language Therapist",
   "R0965\tSpeech & Language Therapist Consultant",
   "R0975\tSpeech & Language Therapist Manager",
   "R0985\tSpeech & Language Therapist Specialist Practitioner",
   "R9500\tSocial Services Senior Management",
   "R9505\tSocial Services Policy and Planning",
   "R9510\tSocial Services Information Manager",
   "R9515\tSocial Work Team Manager (Children)",
   "R9520\tSenior Social Worker (Children)",
   "R9525\tSocial Services Care Manager (Children)",
   "R9530\tSocial Work Assistant (Children)",
   "R9535\tChild Protection Worker",
   "R9540\tFamily Placement Worker",
   "R9545\tCommunity Worker (Children)",
   "R9550\tOccupational Therapist",
   "R9555\tOccupational Therapist Assistant",
   "R9560\tOccupational Therapy Team Manager",
   "R9565\tSocial Work Team Manager (Adults)",
   "R9570\tSenior Social Worker (Adults)",
   "R9575\tSocial Services Care Manager (Adults)",
   "R9580\tSocial Work Assistant (Adults)",
   "R9585\tSocial Work Team Manager (Mental Health)",
   "R9590\tSenior Social Worker (Mental Health)",
   "R9595\tSocial Services Care Manager (Mental Health)",
   "R9600\tSocial Work Assistant (Mental Health)",
   "R9605\tEmergency Duty Social Worker",
   "R9615\tSocial Services Driver",
   "R9620\tHome Care Organiser",
   "R9625\tHome Care Administrator",
   "R9630\tHome Help",
   "R9635\tWarden",
   "R9640\tMeals on Wheels Organiser",
   "R9645\tMeals Delivery",
   "R9650\tDay Centre Manager",
   "R9655\tDay Centre Deputy",
   "R9660\tDay Centre Officer",
   "R9665\tDay Centre Care Staff",
   "R9670\tFamily Centre Manager",
   "R9675\tFamily Centre Deputy",
   "R9680\tFamily Centre Worker",
   "R9685\tNursery Manager",
   "R9690\tNursery Deputy",
   "R9695\tNursery Worker",
   "R9700\tPlaygroup Leader",
   "R9705\tPlaygroup Assistant",
   "R9710\tResidential Manager",
   "R9715\tResidential Deputy",
   "R9720\tResidential Worker",
   "R9725\tResidential Care Staff",
   "R9730\tIntermediate Care Manager",
   "R9735\tIntermediate Care Deputy",
   "R9740\tIntermediate Care Worker",
   "R9745\tIntermediate Care Staff",
   "R9750\tSocial Care SAP User",
   "R9755\tSocial Care SAP Manager",
   "R1270\tClinical Director",
   "R1280\tOptometrist",
   "R1290\tPharmacist",
   "R1979\tMedical Technical Officer - Pharmacy",
   "R1300\tPsychotherapist",
   "R1310\tClinical Psychologist",
   "R1320\tChaplain",
   "R1330\tSocial Worker",
   "R1340\tApproved Social Worker",
   "R1350\tYouth Worker",
   "R1360\tSpecialist Practitioner",
   "R1370\tPractitioner",
   "R0011\tDispenser",
   "R1380\tTechnician - PS&T",
   "R1390\tOsteopath",
   "R1400\tHealthcare Scientist",
   "R1410\tConsultant Healthcare Scientist",
   "R1420\tBiomedical Scientist",
   "R0019\tMedical Technical Officer",
   "R1430\tTechnician - Healthcare Scientists",
   "R1440\tTherapist",
   "R1540\tAssociate Practitioner",
   "R1543\tAssociate Practitioner - Nurse",
   "R1547\tAssociate Practitioner - General Practitioner",
   "R1560\tHelper/Assistant",
   "R1600\tCytoscreener",
   "R1570\tDental Surgery Assistant",
   "R1450\tHealth Care Support Worker",
   "R1580\tMedical Laboratory Assistant",
   "R1550\tCounsellor",
   "R0002\tPorter",
   "R1690\tCall Operator",
   "R1700\tGateway Worker",
   "R1710\tSupport, Time, Recovery Worker",
   "R1480\tHealthcare Assistant",
   "R1490\tNursery Nurse",
   "R1590\tPhlebotomist",
   "R1460\tSocial Care Support Worker",
   "R1470\tHome Help",
   "R1520\tTechnician - Additional Clinical Services",
   "R1530\tTechnical Instructor",
   "R1980\tPatient Welfare Officer",
   "R1500\tPlay Therapist",
   "R1510\tPlay Specialist",
   "R1610\tStudent Technician",
   "R1620\tTrainee Scientist",
   "R1630\tTrainee Practitioner",
   "R1640\tNursing Cadet",
   "R1650\tHealthcare Cadet",
   "R1660\tPre-reg Pharmacist",
   "R1670\tAssistant Psychologist",
   "R1680\tAssistant Psychotherapist",
   "R0007\tERS SDS Organisation Reporting Analyst",
   "R0008\tDemographic Supervisor",
   "R0021\tDSA NHS Number Manager (Temporary)",
   "R0022\tDSA National Clinical Supervisor (Temporary)",
   "R0023\tDSA National Clinical Administrator (Temporary)",
   "R1720\tClerical Worker",
   "R1730\tReceptionist",
   "R1740\tSecretary",
   "R1750\tPersonal Assistant",
   "R1751\tDemographic Administrator (Sensitive Records) Temporary",
   "R1760\tMedical Secretary",
   "R1770\tOfficer",
   "R1971\tMap of Medicine Administrator",
   "R1973\tCommunity Administrator",
   "R1977\tECC/CPA Administrator",
   "R1978\tInformation Officer",
   "R1985\tHealth Records Clerk",
   "R1995\tEnd Point Approver",
   "R5010\tNetwork Technician",
   "R5040\tDesktop Support Administrator",
   "R5090\tRegistration Authority Agent",
   "R5110\tDemographic Administrator",
   "R5120\tISP Administrator",
   "R5130\tTechnical Codes Administrator",
   "R5140\tOSS Administrator",
   "R5170\tEnd Point Administrator",
   "R5175\tEnd Point Viewer",
   "R5181\tRTS Dashboard User",
   "R5183\tRTS BT Dashboard User",
   "R5186\tERS BT Customer SLA User",
   "R5188\tERS BT Supplier SLA User",
   "R5189\tERS LogicaCMG SLA User",
   "R5190\tContent Creator",
   "R5195\tContent Publisher",
   "R5210\tUser Details Administrator",
   "R5250\tEBS Administrator",
   "R6010\tAppointments Clerk",
   "R6030\tWard Clerk",
   "R6050\tClinical Coder",
   "R6060\tMedical Records Clerk",
   "R6080\tWaiting List Clerk",
   "R7100\tTrainer",
   "R7110\tTraining Manager",
   "R7120\tDirectory of Services Coordinator",
   "R9756\tETP System Administrator",
   "R1780\tManager",
   "R1790\tSenior Manager",
   "R1910\tChair",
   "R1920\tChief Executive",
   "R1930\tFinance Director",
   "R1940\tOther Executive Director",
   "R1950\tBoard Level Director",
   "R1960\tNon Executive Director",
   "R1970\tChildcare Co-ordinator",
   "R1982\tSenior Administrator",
   "R1983\tWard Manager",
   "R1986\tWorkgroup Administrator",
   "R1987\tNational RBAC Attribute Administrator",
   "R1988\tNational RBAC Baseline Policy Administrator",
   "R1989\tComplaints Coordinator",
   "R1990\tComplaints Investigator",
   "R1996\tEnd Point DNS Administrator",
   "R1997\tEnd Point Spine Administrator",
   "R1998\tEnd Point Super User",
   "R1999\tEnd Point Service Administrator",
   "R5000\tNetwork Administrator",
   "R5003\tCluster System Administrator",
   "R5007\tSystem Administrator",
   "R5020\tHelpdesk Administrator",
   "R5060\tSecurity Policy Controller",
   "R5070\tSenior Security Manager",
   "R5072\tRoot Registration Authority Manager",
   "R5080\tRegistration Authority Manager",
   "R5100\tAudit Manager",
   "R5105\tCaldicott Guardian",
   "R5180\tNASP Service Manager",
   "R5182\tERS ETP System Administrator",
   "R5184\tERS Spine SLA Manager",
   "R5185\tERS BT Customer SLA Manager",
   "R5187\tERS BT Supplier SLA Manager",
   "R5191\tERS Support Administrator",
   "R5192\tECS Administrator",
   "R5300\tPortal Administrator",
   "R5310\tLiquidLogic Administrator",
   "R5320\ti.EPR Administrator",
   "R5330\tSynergy Administrator",
   "R5340\tSystmOne Administrator",
   "R6020\tOutpatient Manager",
   "R6040\tBed Manager",
   "R6070\tMedical Records Manager",
   "R6090\tWaiting List Manager",
   "R6100\tMental Health Act Administrator",
   "R6160\tAd-hoc Report Manager",
   "R7130\tPAS Manager",
   "R1800\tTechnician - Admin & Clerical",
   "R1810\tAccountant",
   "R1820\tLibrarian",
   "R1830\tInterpreter",
   "R1840\tAnalyst",
   "R1850\tAdviser",
   "R1860\tResearcher",
   "R1870\tControl Assistant",
   "R1880\tArchitect",
   "R1890\tLawyer",
   "R1900\tSurveyor",
   "R5030\tHelpdesk Technician",
   "R5050\tDesktop Support Technician",
   "R5150\tSystem Worker",
   "R5400\tAvailability Monitor",
   "R8000\tClinical Practitioner Access Role",
   "R8001\tNurse Access Role",
   "R8002\tNurse Manager Access Role",
   "R8003\tHealth Professional Access Role",
   "R8004\tHealthcare Student Access Role",
   "R8016\tMidwife Access Role",
   "R8017\tMidwife Manager Access Role",
   "R8024\tBank Access Role",
   "R8005\tBiomedical Scientist Access Role",
   "R8006\tMedical Secretary Access Role",
   "R8007\tClinical Coder Access Role",
   "R8008\tAdmin/Clinical Support Access Role",
   "R8015\tSystems Support Access Role",
   "R0001\tPrivacy Officer",
   "R8009\tReceptionist Access Role",
   "R8010\tClerical Access Role",
   "R8011\tClerical Manager Access Role",
   "R8012\tInformation Officer Access Role",
   "R8013\tHealth Records Manager Access Role",
   "R8014\tSocial Worker Access Role"]

/-- One iteration of the table-building loop in `init` (roles.go lines
31-48): skip a line without words; otherwise the code is the first word, a
trailing `(Closed)` word sets the deprecation flag and is removed, and the
job title joins the remaining words after the code with single spaces. -/
def parseRoleLine (entry : String) : Option (String × Role) :=
  match goFields entry with
  | [] => none
  | w :: ws =>
    let words := w :: ws
    let deprecated := words.getLast? == some "(Closed)"
    let words := if deprecated then words.dropLast else words
    some (w, { jobTitle := String.intercalate " " (words.drop 1),
               deprecated := deprecated })

/-- The `(code, role)` pairs written into the `codes` map, in line order. -/
def sdsRoleEntries : List (String × Role) := sdsLines.filterMap parseRoleLine

/-- Lookup in the `codes` Go map: the most recent write wins, so scan the
entries from the last line backwards. -/
def codesLookup (code : String) : Option Role :=
  sdsRoleEntries.reverse.lookup code

/-- Embeds `roleResolver` (roles.go lines 59-64): exact-key lookup in the
`codes` map, `ErrNotFound` on absence. -/
def roleResolver (id : ApiIdentifier) : Except MapError Role :=
  match codesLookup id.value with
  | some role => .ok role
  | none => .error .notFound

/-- Embeds the `sdsMapping` Go map literal (roles.go lines 98-115), in
source order. -/
def sdsMapping : List (String × Nat) :=
  [("R0050", 768839008), ("R0030", 158890004), ("R0040", 768839008),
   ("R0070", 309396002), ("R0080", 397908005), ("R0100", 224529009),
   ("R0110", 302211009), ("R0120", 224530004), ("R0130", 224531000),
   ("R0140", 224532007), ("R0150", 158972004), ("R0260", 62247001),
   ("R0370", 309454000), ("R0790", 159033005), ("R0018", 309418004),
   ("R1760", 394572006)]

/-- Embeds the reverse-map construction in `init` (roles.go lines 49-52).
Go iterates the map in unspecified order with later writes overwriting; the
model fixes source order, consing so that a lookup sees the latest write.
The only duplicated target is 768839008 (from R0050 and R0040), whose
surviving source is therefore order-dependent in Go; no theorem below
depends on which one survives. -/
def sdsReverseMapping : List (Nat × String) :=
  sdsMapping.foldl (fun acc p => (p.2, p.1) :: acc) []

/-- Go conversion to `rune` (signed 32-bit) from an unsigned integer,
truncating. -/
def uint64ToRune (n : Nat) : Int :=
  let m : Nat := n % 2 ^ 32
  if m < 2 ^ 31 then (m : Int) else (m : Int) - 2 ^ 32

/-- Go conversion `string(r)` of a rune: the one-character string of the
code point, with surrogates and out-of-range values replaced by U+FFFD. -/
def runeString (r : Int) : String :=
  if (0 ≤ r ∧ r < 0xD800) ∨ (0xDFFF < r ∧ r ≤ 0x10FFFF) then
    String.singleton (Char.ofNat r.toNat)
  else "�"

/-- Go `string(n)` on a `uint64`: convert to rune, then to a string. -/
def goStringOfUint64 (n : Nat) : String := runeString (uint64ToRune n)

/-- Embeds `mapSDStoSNOMED` (roles.go lines 66-74): look the SDS code up in
the forward table and return a SNOMED-system identifier whose value is the
Go string conversion `string(sctID)` of the `uint64` concept id. -/
def mapSDStoSNOMED (id : ApiIdentifier) : Except MapError ApiIdentifier :=
  match sdsMapping.lookup id.value with
  | some sctID => .ok ⟨SNOMEDCT, goStringOfUint64 sctID⟩
  | none => .error .notFound

/-- Verhoeff dihedral multiplication table `d`. -/
def verhoeffD : List (List Nat) :=
  [[0,1,2,3,4,5,6,7,8,9],[1,2,3,4,0,6,7,8,9,5],[2,3,4,0,1,7,8,9,5,6],
   [3,4,0,1,2,8,9,5,6,7],[4,0,1,2,3,9,5,6,7,8],[5,9,8,7,6,0,4,3,2,1],
   [6,5,9,8,7,1,0,4,3,2],[7,6,5,9,8,2,1,0,4,3],[8,7,6,5,9,3,2,1,0,4],
   [9,8,7,6,5,4,3,2,1,0]]

/-- Verhoeff permutation table `p`. -/
def verhoeffP : List (List Nat) :=
  [[0,1,2,3,4,5,6,7,8,9],[1,5,7,6,2,8,3,0,9,4],[5,8,0,3,7,9,6,1,4,2],
   [8,9,1,6,0,4,3,5,2,7],[9,4,5,3,1,2,6,8,7,0],[4,2,8,6,5,7,3,9,0,1],
   [2,7,9,3,8,0,6,4,1,5],[7,0,4,6,9,1,3,2,5,8]]

/-- Verhoeff checksum over a digit list, processed from the right; a string
with a valid check digit finishes at 0. -/
def verhoeffValid (digits : List Nat) : Bool :=
  (digits.reverse.enum.foldl
    (fun c p =>
      (verhoeffD.getD c []).getD ((verhoeffP.getD (p.1 % 8) []).getD p.2 0) 0)
    0) == 0

/-- Models `snomed.ParseValidIdentifier` from the external go-terminology
library: a SNOMED CT identifier is a string of 6 to 18 decimal digits with a
valid trailing Verhoeff check digit; anything else is rejected with a parse
error.  The theorems below rely only on the rejection of non-numeric
strings. -/
def parseValidIdentifier (s : String) : Except MapError Nat :=
  if s.data.all Char.isDigit ∧ 6 ≤ s.length ∧ s.length ≤ 18
      ∧ verhoeffValid (s.data.map (fun c => c.toNat - 48)) then
    .ok (Empi.digitsToNat s.data)
  else .error (.parseFailure s)

/-- Models `Identifier.IsConcept` from go-terminology: the two-digit
partition identifier before the check digit is 00 or 10 for a concept. -/
def isConcept (sctID : Nat) : Bool :=
  (sctID / 10) % 100 == 0 || (sctID / 10) % 100 == 10

/-- Embeds `mapSNOMEDtoSDS` (roles.go lines 78-93): parse and validate the
SNOMED identifier (errors are wrapped parse failures), require a concept,
then look it up in the derived reverse table. -/
def mapSNOMEDtoSDS (id : ApiIdentifier) : Except MapError ApiIdentifier :=
  match parseValidIdentifier id.value with
  | .error e => .error e
  | .ok sctID =>
    if ¬ isConcept sctID then .error (.notConcept id.value)
    else
      match sdsReverseMapping.lookup sctID with
      | some sds => .ok ⟨SDSJobRoleNameURI, sds⟩
      | none => .error .notFound

/-- The round trip of claim C6: map an SDS value to SNOMED and the result
back to SDS. -/
def roundTripSDS (value : String) : Except MapError ApiIdentifier :=
  match mapSDStoSNOMED ⟨SDSJobRoleNameURI, value⟩ with
  | .error e => .error e
  | .ok snomedId => mapSNOMEDtoSDS snomedId

end Sds

namespace Empi

/-! ## Derived forms and sample data used by the theorems -/

/-- The Identifier built by the `identifiers` loop from one accepted `PID.3`
entry. -/
def mkOfficialIdentifier (id : CX) : Identifier :=
  { use := "official", system := id.cx4.hd1, value := id.cx1, period := none,
    assigner := some { reference := id.cx4.hd1, display := id.cx4.hd1 } }

/-- The Address built by the `addresses` loop from one `PID.11` entry. -/
def mkNormalizedAddress (address : XAD) : Address :=
  { use := "", type := "", text := "",
    line := address.xad1.sad1, city := address.xad2,
    district := address.xad3, state := "",
    country := address.xad4, postalCode := address.xad5,
    period := some { start := parseDate address.xad13,
                     end_ := parseDate address.xad14 } }

/-- A structurally well-formed success envelope with every field empty: the
shape the remote system returns for a non-match. -/
def env0 : Envelope := ⟨⟨⟨[], [], ⟨""⟩, "", [], [], [], ⟨""⟩⟩, ⟨⟨""⟩, ⟨""⟩⟩⟩⟩

/-- A sample name entry. -/
def xpnSmith : XPN := ⟨⟨"SMITH"⟩, "JOHN", "JAMES", "MR"⟩

/-- An envelope carrying one name entry and nothing else. -/
def envSmith : Envelope :=
  ⟨⟨⟨[], [xpnSmith], ⟨""⟩, "", [], [], [], ⟨""⟩⟩, ⟨⟨""⟩, ⟨""⟩⟩⟩⟩

/-- A sample identifier-list entry with non-empty authority and value. -/
def cxSample : CX := ⟨"X774755", ⟨"140"⟩⟩

/-- An envelope whose identifier list repeats `cxSample` twice (and carries a
name so the patient is found). -/
def envTwoIdentifiers : Envelope :=
  ⟨⟨⟨[cxSample, cxSample], [xpnSmith], ⟨""⟩, "", [], [], [], ⟨""⟩⟩, ⟨⟨""⟩, ⟨""⟩⟩⟩⟩

end Empi

deriving instance DecidableEq for Except

namespace Empi

/-! ## Shared helper lemmas -/

/-- A string has at least as many UTF-8 bytes as characters. -/
theorem length_le_utf8ByteSize (s : String) : s.length ≤ s.utf8ByteSize := by
  obtain ⟨l⟩ := s
  induction l with
  | nil => simp [String.utf8ByteSize, String.utf8ByteSize.go, String.length]
  | cons c cs ih =>
    simp [String.utf8ByteSize, String.utf8ByteSize.go, String.length] at ih ⊢
    have := Char.utf8Size_pos c
    omega

/-- The identifier loop of the envelope accessor, with an arbitrary
accumulator: it appends exactly the accepted entries, mapped and in order. -/
theorem identifiers_foldl_eq (l : List CX) :
    ∀ acc : List Identifier,
      (l.foldl (fun result id =>
        let authority := id.cx4.hd1
        let identifier := id.cx1
        if authority ≠ "" ∧ identifier ≠ "" then
          result ++ [{ use := "official", system := authority,
                       value := identifier, period := none,
                       assigner := some { reference := authority,
                                          display := authority } }]
        else result) acc)
      = acc ++ (l.filter fun id =>
          decide (id.cx4.hd1 ≠ "" ∧ id.cx1 ≠ "")).map mkOfficialIdentifier := by
  induction l with
  | nil => intro acc; simp
  | cons x xs ih =>
    intro acc
    by_cases h : x.cx4.hd1 ≠ "" ∧ x.cx1 ≠ ""
    · simp [List.foldl_cons, List.filter_cons, h.1, h.2, ih, mkOfficialIdentifier]
    · rw [not_and_or] at h
      rcases h with h | h <;>
        simp [List.foldl_cons, List.filter_cons, not_ne_iff.mp h, ih]

/-- The address loop of the envelope accessor, with an arbitrary
accumulator: it appends one normalised address per entry, in order. -/
theorem addresses_foldl_eq (l : List XAD) :
    ∀ acc : List Address,
      (l.foldl (fun result address =>
        let dateFrom := parseDate address.xad13
        let dateTo := parseDate address.xad14
        result ++ [{ use := "", type := "", text := "",
                     line := address.xad1.sad1, city := address.xad2,
                     district := address.xad3, state := "",
                     country := address.xad4, postalCode := address.xad5,
                     period := some { start := dateFrom, end_ := dateTo } }]) acc)
      = acc ++ l.map mkNormalizedAddress := by
  induction l with
  | nil => intro acc; simp
  | cons x xs ih =>
    intro acc
    simp only [List.foldl_cons, List.map_cons, ih, List.append_assoc]
    simp [mkNormalizedAddress]

end Empi

/-! ## Claim theorems -/

/-- C2: normalisation of a parsed envelope returns the absent result (no
Patient, no error) exactly when both the surname and the composed given
names are empty; when at least one is non-empty it returns a populated
Patient carrying exactly those name fields (so never a populated record with
blank name fields standing in for absence), and it never returns an error. -/
theorem C2_toPatient_absent_iff_blank_names (e : Empi.Envelope) :
    (e.ToPatient = .ok none ↔ e.surname = "" ∧ e.firstnames = "") ∧
    (e.surname ≠ "" ∨ e.firstnames ≠ "" →
      ∃ p : Empi.Patient, e.ToPatient = .ok (some p) ∧
        p.lastname = e.surname ∧ p.firstnames = e.firstnames ∧
        ¬(p.lastname = "" ∧ p.firstnames = "")) ∧
    (∀ err, e.ToPatient ≠ .error err) := by
  by_cases h : e.surname = "" ∧ e.firstnames = ""
  · have hE : e.ToPatient = .ok none := by
      simp [Empi.Envelope.ToPatient, h.1, h.2]
    refine ⟨by simp [hE, h], ?_, by simp [hE]⟩
    intro hne
    rcases hne with hne | hne
    · exact absurd h.1 hne
    · exact absurd h.2 hne
  · have hE : e.ToPatient = .ok (some
        ⟨e.surname, e.firstnames, e.title, e.gender, e.dateBirth, e.dateDeath,
         e.surgery, e.generalPractitioner, e.identifiers, e.addresses,
         e.telecom⟩) := by
      simp [Empi.Envelope.ToPatient, h]
    refine ⟨?_, fun _ => ⟨_, hE, rfl, rfl, h⟩, by simp [hE]⟩
    simp only [hE]
    constructor
    · intro hcontra
      exact absurd hcontra (by simp)
    · intro hcontra
      exact absurd hcontra h

/-- Witness for C2 at a concrete envelope with a non-empty surname. -/
theorem C2_witness :
    ∃ p : Empi.Patient, Empi.envSmith.ToPatient = .ok (some p) ∧
      p.lastname = Empi.envSmith.surname ∧
      p.firstnames = Empi.envSmith.firstnames ∧
      ¬(p.lastname = "" ∧ p.firstnames = "") :=
  (C2_toPatient_absent_iff_blank_names Empi.envSmith).2.1 (Or.inl (by decide))

/-- C3: a response body that does not unmarshal into the expected document
structure makes `performRequest` return the malformed-upstream-response
error, never the absent (nil Patient, nil error) result; the Go code never
reads the status code, so this covers in particular every 2xx response. -/
theorem C3_malformed_body_never_absent (msg : String) :
    Empi.performRequest (.malformedBody msg) = .error (.xmlError msg) ∧
    Empi.performRequest (.malformedBody msg) ≠ .ok none :=
  ⟨rfl, by simp [Empi.performRequest]⟩

/-- Witness for C3 at a concrete unmarshal error message. -/
theorem C3_witness :
    Empi.performRequest (.malformedBody "unexpected EOF") ≠ .ok none :=
  (C3_malformed_body_never_absent "unexpected EOF").2

/-- C4 counterexample: the string "00010101" is neither unparsable, empty
nor all-zero -- under the claimed first-8-characters YYYYMMDD reading it
denotes 0001-01-01 -- yet the code returns the absent date for it, because
`time.Parse` yields the zero time there and `parseDate` also rejects the
zero time. -/
theorem C4_counterexample_zero_time :
    Empi.specTimestampDate "00010101" = some ⟨1, 1, 1⟩ ∧
    Empi.parseDate "00010101" = none := by decide

/-- C4 (amended): for every timestamp string the date is obtained by taking
the first 8 characters and reading them as YYYYMMDD, except that a value
reading as the zero time 0001-01-01 also yields the unknown date;
"19600101000000" yields 1960-01-01, while "00000000" and the empty string
yield the unknown date; and no date value ever makes normalisation return
an error. -/
theorem C4_parseDate_first8_yyyymmdd :
    (∀ d : String,
      Empi.parseDate d =
        match Empi.specTimestampDate d with
        | none => none
        | some t => if t = Empi.zeroTime then none else some t) ∧
    Empi.parseDate "19600101000000" = some ⟨1960, 1, 1⟩ ∧
    Empi.parseDate "00000000" = none ∧
    Empi.parseDate "" = none ∧
    (∀ e : Empi.Envelope, ∀ err, e.ToPatient ≠ .error err) := by
  refine ⟨?_, by decide, by decide, by decide, ?_⟩
  · intro d
    unfold Empi.parseDate Empi.specTimestampDate
    by_cases h : d.utf8ByteSize > 8
    · simp [h]
    · have hlen : d.data.length ≤ 8 := by
        have h2 := Empi.length_le_utf8ByteSize d
        have h3 : d.length = d.data.length := rfl
        omega
      simp [h, List.take_of_length_le hlen]
  · intro e err
    by_cases h : e.surname = "" ∧ e.firstnames = "" <;>
      simp [Empi.Envelope.ToPatient, h]

/-- Witness for C4 applied at a concrete timestamp string. -/
theorem C4_witness :
    Empi.parseDate "19841231" =
      (match Empi.specTimestampDate "19841231" with
        | none => none
        | some t => if t = Empi.zeroTime then none else some t) :=
  C4_parseDate_first8_yyyymmdd.1 "19841231"

/-- C5: the normalized identifier list keeps exactly the identifier-list
entries with non-empty authority and non-empty value, in their original
order, each mapped to an Identifier tagged official whose assigner is the
authority code; an envelope with two repeated entries produces both, in
order. -/
theorem C5_identifiers_official_in_order :
    (∀ e : Empi.Envelope,
      e.identifiers = (e.queryResponse.pid.pid3.filter fun id =>
          decide (id.cx4.hd1 ≠ "" ∧ id.cx1 ≠ "")).map Empi.mkOfficialIdentifier) ∧
    Empi.envTwoIdentifiers.identifiers
      = [Empi.mkOfficialIdentifier Empi.cxSample,
         Empi.mkOfficialIdentifier Empi.cxSample] := by
  refine ⟨?_, by decide⟩
  intro e
  have h := Empi.identifiers_foldl_eq e.queryResponse.pid.pid3 []
  simp only [List.nil_append] at h
  exact h

/-- C8: every address-list entry yields exactly one Address, in order (none
is ever rejected), normalised by `mkNormalizedAddress`, whose period is
always present with each bound set to the parse of its date sub-field when
that parse succeeds and left unset otherwise. -/
theorem C8_addresses_total_map (e : Empi.Envelope) :
    e.addresses = e.queryResponse.pid.pid11.map Empi.mkNormalizedAddress ∧
    e.addresses.length = e.queryResponse.pid.pid11.length := by
  have h : e.addresses = e.queryResponse.pid.pid11.map Empi.mkNormalizedAddress := by
    have h0 := Empi.addresses_foldl_eq e.queryResponse.pid.pid11 []
    simp only [List.nil_append] at h0
    exact h0
  exact ⟨h, by rw [h, List.length_map]⟩

/-- C1 counterexample: with a live empty cache and a remote resolution that
returns the absent (nil Patient) outcome, the cache afterwards DOES contain
an entry under authority + "/" + identifier (holding the nil Patient),
contradicting the claim that not-found outcomes are never stored. -/
theorem C1_counterexample_nil_is_cached :
    Empi.performRequest (.parsed Empi.env0) = .ok none ∧
    ((Empi.writeIdentifier (some []) false (.parsed Empi.env0)
        "NHS" "1234567890").cache.getD []).lookup ("NHS" ++ "/" ++ "1234567890")
      = some none := by decide

/-- C1 (amended): a not-found remote outcome IS stored in the result cache:
on a cache miss whose remote resolution returns the absent outcome, the
handler answers 404, stores the nil Patient under authority + "/" +
identifier after one remote call, and a repeated request for the same key is
then served from the cache -- again 404 -- with no further remote call and
no cache change. -/
theorem C1_not_found_cached_and_served (m : Empi.CacheMap)
    (remote : Empi.RemoteOutcome) (authority identifier : String)
    (hmiss : m.lookup (authority ++ "/" ++ identifier) = none)
    (habsent : Empi.performRequest remote = .ok none) :
    (Empi.writeIdentifier (some m) false remote authority identifier).response.status = 404 ∧
    (Empi.writeIdentifier (some m) false remote authority identifier).cache
      = some ((authority ++ "/" ++ identifier, none) :: m) ∧
    (Empi.writeIdentifier (some m) false remote authority identifier).effects.remoteCalls = 1 ∧
    (Empi.writeIdentifier (some ((authority ++ "/" ++ identifier, none) :: m))
        false remote authority identifier).response.status = 404 ∧
    (Empi.writeIdentifier (some ((authority ++ "/" ++ identifier, none) :: m))
        false remote authority identifier).effects.remoteCalls = 0 ∧
    (Empi.writeIdentifier (some ((authority ++ "/" ++ identifier, none) :: m))
        false remote authority identifier).cache
      = some ((authority ++ "/" ++ identifier, none) :: m) := by
  simp [Empi.writeIdentifier, Empi.getCache, Empi.setCache, hmiss, habsent,
    List.lookup]

/-- Witness for C1 (amended) at an empty cache and an empty envelope. -/
theorem C1_witness :
    ([] : Empi.CacheMap).lookup ("NHS" ++ "/" ++ "1234567890") = none ∧
    Empi.performRequest (.parsed Empi.env0) = .ok none ∧
    (Empi.writeIdentifier (some []) false (.parsed Empi.env0)
        "NHS" "1234567890").cache
      = some (("NHS" ++ "/" ++ "1234567890", none) :: []) :=
  ⟨by decide, by decide,
   (C1_not_found_cached_and_served [] (.parsed Empi.env0) "NHS" "1234567890"
      (by decide) (by decide)).2.1⟩

/-- C6 (code bug): "R0030" is a key of the forward table and its image
158890004 is a key of the derived reverse table mapping back to "R0030", so
the claimed round trip should return "R0030"; instead the forward mapper
emits the Go integer-to-string conversion of the uint64 concept id -- the
single replacement character U+FFFD, not the decimal digits "158890004" --
and the reverse mapper rejects that value with a wrapped SNOMED parse
error, so the composition returns neither "R0030" nor NotFound. -/
theorem C6_roundtrip_broken_by_string_conversion :
    Sds.sdsMapping.lookup "R0030" = some 158890004 ∧
    Sds.sdsReverseMapping.lookup 158890004 = some "R0030" ∧
    Sds.mapSDStoSNOMED ⟨Sds.SDSJobRoleNameURI, "R0030"⟩
      = .ok ⟨Sds.SNOMEDCT, "�"⟩ ∧
    "�" ≠ "158890004" ∧
    Sds.roundTripSDS "R0030" = .error (.parseFailure "�") := by decide

/-- Characterisation of the `LookupAuthority` scanning loop: starting from a
positive index, the result is zero exactly when the sought code is not in
the list, and a non-zero result indexes an entry exactly equal to the sought
code. -/
theorem lookupAuthorityAux_spec (s : String) :
    ∀ (l : List String) (i : Nat),
      (0 < i → (Empi.lookupAuthorityAux s l i = 0 ↔ s ∉ l)) ∧
      (Empi.lookupAuthorityAux s l i ≠ 0 →
        i ≤ Empi.lookupAuthorityAux s l i ∧
        l.getD (Empi.lookupAuthorityAux s l i - i) "" = s) := by
  intro l
  induction l with
  | nil =>
    intro i
    constructor
    · intro _
      simp [Empi.lookupAuthorityAux, Empi.AuthorityUnknown]
    · intro h
      exact absurd rfl h
  | cons a rest ih =>
    intro i
    constructor
    · intro hi
      by_cases ha : a = s
      · subst ha
        simp only [Empi.lookupAuthorityAux, if_pos rfl]
        have hne : i ≠ 0 := by omega
        have hmem : a ∈ a :: rest := List.mem_cons_self a rest
        constructor
        · intro h
          exact absurd h hne
        · intro hnotmem
          exact absurd hmem hnotmem
      · simp only [Empi.lookupAuthorityAux, if_neg ha]
        rw [(ih (i + 1)).1 (by omega)]
        have ha2 : s ≠ a := fun h => ha h.symm
        simp [List.mem_cons, ha2]
    · by_cases ha : a = s
      · subst ha
        simp only [Empi.lookupAuthorityAux, if_pos rfl]
        intro _
        exact ⟨Nat.le_refl i, by simp⟩
      · simp only [Empi.lookupAuthorityAux, if_neg ha]
        intro hne
        obtain ⟨hge, hget⟩ := (ih (i + 1)).2 hne
        refine ⟨by omega, ?_⟩
        have hsplit : Empi.lookupAuthorityAux s rest (i + 1) - i
            = (Empi.lookupAuthorityAux s rest (i + 1) - (i + 1)) + 1 := by omega
        rw [hsplit, List.getD_cons_succ]
        exact hget

/-- C7: an authority code is matched only by exact full-string equality
against the closed code table (anything else is AuthorityUnknown, and a
match returns the index of its exact entry), and a GetByIdentifier request
whose authority is unknown is answered 400 -- with body "invalid authority"
whenever the user parameter is non-empty -- with the cache untouched and
zero remote calls, cache reads and cache writes. -/
theorem C7_invalid_authority_rejected_before_work :
    (∀ s : String,
      (Empi.LookupAuthority s ≠ Empi.AuthorityUnknown ↔ s ∈ Empi.authorityCodes.drop 1) ∧
      (Empi.LookupAuthority s ≠ Empi.AuthorityUnknown →
        Empi.authorityCodes.getD (Empi.LookupAuthority s) "" = s)) ∧
    (∀ (cache : Empi.Cache) (fake : Bool) (remote : Empi.RemoteOutcome)
       (authority identifier user : String),
      Empi.LookupAuthority authority = Empi.AuthorityUnknown →
      (Empi.GetByIdentifier cache fake remote authority identifier user).response.status = 400 ∧
      (Empi.GetByIdentifier cache fake remote authority identifier user).cache = cache ∧
      (Empi.GetByIdentifier cache fake remote authority identifier user).effects = ⟨0, 0, 0⟩ ∧
      (user ≠ "" →
        (Empi.GetByIdentifier cache fake remote authority identifier user).response.body
          = .errorText "invalid authority")) := by
  constructor
  · intro s
    by_cases h0 : "" = s
    · rw [← h0]
      exact ⟨by decide, by decide⟩
    · have h1 : Empi.LookupAuthority s
          = Empi.lookupAuthorityAux s
              ["NHS", "100", "139", "108", "109", "110", "111", "126",
               "140", "149", "170"] 1 := by
        simp [Empi.LookupAuthority, Empi.authorityCodes,
          Empi.lookupAuthorityAux, h0]
      constructor
      · rw [h1]
        have hdrop : Empi.authorityCodes.drop 1
            = ["NHS", "100", "139", "108", "109", "110", "111", "126",
               "140", "149", "170"] := rfl
        rw [hdrop, Ne, Empi.AuthorityUnknown,
          (lookupAuthorityAux_spec s _ 1).1 (by omega), not_not]
      · intro hne
        rw [h1] at hne ⊢
        have hne0 : Empi.lookupAuthorityAux s
            ["NHS", "100", "139", "108", "109", "110", "111", "126",
             "140", "149", "170"] 1 ≠ 0 := by
          simpa [Empi.AuthorityUnknown] using hne
        obtain ⟨hge, hget⟩ := (lookupAuthorityAux_spec s _ 1).2 hne0
        have hsplit : Empi.lookupAuthorityAux s
            ["NHS", "100", "139", "108", "109", "110", "111", "126",
             "140", "149", "170"] 1
            = (Empi.lookupAuthorityAux s
                ["NHS", "100", "139", "108", "109", "110", "111", "126",
                 "140", "149", "170"] 1 - 1) + 1 := by omega
        rw [Empi.authorityCodes, hsplit, List.getD_cons_succ]
        simpa using hget
  · intro cache fake remote authority identifier user h
    by_cases hu : user = "" <;>
      simp [Empi.GetByIdentifier, hu, h]

/-- Witness for C7 at the unknown authority code "ZZZ". -/
theorem C7_witness :
    Empi.LookupAuthority "ZZZ" = Empi.AuthorityUnknown ∧
    (Empi.GetByIdentifier (some []) false (.parsed Empi.env0)
        "ZZZ" "X774755" "u").response.status = 400 ∧
    (Empi.GetByIdentifier (some []) false (.parsed Empi.env0)
        "ZZZ" "X774755" "u").effects = ⟨0, 0, 0⟩ :=
  have h := (C7_invalid_authority_rejected_before_work).2 (some []) false
    (.parsed Empi.env0) "ZZZ" "X774755" "u" (by decide)
  ⟨by decide, h.1, h.2.2.1⟩

/-- C9: code "R0050" resolves to job title "Consultant" not deprecated;
code "R0120" (whose table line ends in the marker "(Closed)") resolves to
"Senior Registrar" with the deprecation flag set; and in general any table
line whose trailing word is "(Closed)" is stored deprecated with the marker
word stripped from the stored job title. -/
theorem C9_role_table_construction :
    Sds.codesLookup "R0050" = some ⟨"Consultant", false⟩ ∧
    Sds.roleResolver ⟨Sds.SDSJobRoleNameURI, "R0050"⟩ = .ok ⟨"Consultant", false⟩ ∧
    Sds.codesLookup "R0120" = some ⟨"Senior Registrar", true⟩ ∧
    (∀ entry : String, ∀ w ws, Sds.goFields entry = w :: ws →
      (w :: ws).getLast? = some "(Closed)" →
      Sds.parseRoleLine entry
        = some (w, ⟨String.intercalate " " ((w :: ws).dropLast.drop 1), true⟩)) := by
  refine ⟨by decide, by decide, by decide, ?_⟩
  intro entry w ws hf hlast
  unfold Sds.parseRoleLine
  rw [hf]
  simp [hlast]

/-- Witness for C9 at the table line of code "R0120". -/
theorem C9_witness :
    Sds.goFields "R0120\tSenior Registrar (Closed)"
      = ["R0120", "Senior", "Registrar", "(Closed)"] ∧
    Sds.parseRoleLine "R0120\tSenior Registrar (Closed)"
      = some ("R0120",
          ⟨String.intercalate " "
            ((["R0120", "Senior", "Registrar", "(Closed)"] : List String).dropLast.drop 1),
           true⟩) :=
  ⟨by decide,
   C9_role_table_construction.2.2.2 "R0120\tSenior Registrar (Closed)"
     "R0120" ["Senior", "Registrar", "(Closed)"] (by decide) (by decide)⟩

/-- C10 counterexample: the NHS-number path segment "ÉÉÉÉÉ" is five
characters long (ten UTF-8 bytes), so the claim requires a 400 rejection
with no cache or remote work; the code validates `len(nnn)`, which counts
bytes, so this request passes validation and performs the remote call (one
remote call, one cache read, one cache write), answering 404 here. -/
theorem C10_counterexample_char_vs_byte :
    ("ÉÉÉÉÉ" : String).length = 5 ∧
    (Empi.GetByNhsNumber (some []) false (.parsed Empi.env0) "ÉÉÉÉÉ" "u").response.status = 404 ∧
    (Empi.GetByNhsNumber (some []) false (.parsed Empi.env0) "ÉÉÉÉÉ" "u").effects
      = ⟨1, 1, 1⟩ := by decide

/-- C10 (amended): a request to GetByNhsNumber or GetByIdentifier with an
empty user parameter, and a GetByNhsNumber request whose identifier path
segment is not exactly 10 UTF-8 bytes long, is answered 400 Bad Request
with the cache untouched and no cache read, no cache write and no remote
call. -/
theorem C10_input_validation_precedes_work
    (cache : Empi.Cache) (fake : Bool) (remote : Empi.RemoteOutcome)
    (nnn authority identifier user : String) :
    (user = "" →
      Empi.GetByNhsNumber cache fake remote nnn user
        = ⟨⟨400, .errorText "invalid user"⟩, cache, ⟨0, 0, 0⟩⟩ ∧
      Empi.GetByIdentifier cache fake remote authority identifier user
        = ⟨⟨400, .errorText "invalid user"⟩, cache, ⟨0, 0, 0⟩⟩) ∧
    (nnn.utf8ByteSize ≠ 10 →
      (Empi.GetByNhsNumber cache fake remote nnn user).response.status = 400 ∧
      (Empi.GetByNhsNumber cache fake remote nnn user).cache = cache ∧
      (Empi.GetByNhsNumber cache fake remote nnn user).effects = ⟨0, 0, 0⟩) := by
  constructor
  · intro hu
    constructor <;> simp [Empi.GetByNhsNumber, Empi.GetByIdentifier, hu]
  · intro hn
    by_cases hu : user = "" <;> simp [Empi.GetByNhsNumber, hu, hn]

/-- Witness for C10 (amended) at the three-byte segment "123". -/
theorem C10_witness :
    ("123" : String).utf8ByteSize ≠ 10 ∧
    (Empi.GetByNhsNumber none false (.parsed Empi.env0) "123" "u").response.status = 400 ∧
    (Empi.GetByNhsNumber none false (.parsed Empi.env0) "123" "u").effects = ⟨0, 0, 0⟩ :=
  have h := (C10_input_validation_precedes_work none false (.parsed Empi.env0)
    "123" "NHS" "X774755" "u").2 (by decide)
  ⟨by decide, h.1, h.2.2⟩
